import Mathlib

/-!
Shallow embedding of the go-library connection-lifecycle managers
(src/db/mongo/client.go, src/db/postgres/client.go), the migration
helpers (src/db/migration.go, src/db/postgres/migration.go) and the
Postgres error classifiers (src/db/postgres/errors.go).

Go driver calls (mongo driver, gorm, the OS) are modelled as oracle
structures of pure functions; the package-level variables `client` / `db`
and the `resync.Once` barrier become an explicit state record threaded
through the operations.  Go's `error` is `Option GoErr` (`none` = nil).
A crucial point of the embedding: Go's `:=` short declarations inside the
`once.Do` closures shadow the outer `err` variable, and the model keeps
the outer and the shadowed error variables separate exactly as the Go
scoping rules dictate.
-/

namespace GoLibrary

/-- Go error values, as a wrap chain.  `pgError` models `*pgconn.PgError`
(which has no `Unwrap`, hence is a leaf), `noChange` models the sentinel
`migrate.ErrNoChange`, `mkError` models `errors.New` and opaque driver
errors, and `wrap` models `fmt.Errorf` with `%w`. -/
inductive GoErr where
  | pgError (code : String)
  | noChange
  | mkError (msg : String)
  | wrap (msg : String) (inner : GoErr)
deriving DecidableEq, Repr

/-- Model of `errors.As(err, &pgErr)` for `*pgconn.PgError`: walk the unwrap chain
and return the code of the first `pgError` found, if any. -/
def errorsAsPgError : GoErr → Option String
  | .pgError code => some code
  | .wrap _ inner => errorsAsPgError inner
  | _ => none

/-- Model of `errors.Is(err, migrate.ErrNoChange)`: the unwrap chain reaches the
`noChange` sentinel. -/
def errorsIsNoChange : GoErr → Bool
  | .noChange => true
  | .wrap _ inner => errorsIsNoChange inner
  | _ => false

/-- src/db/postgres/errors.go IsUniqueViolation: `errors.As` finds a
`*pgconn.PgError` and its `Code` is `"23505"`.  A Go `nil` error is `none`
and `errors.As` returns false on it. -/
def IsUniqueViolation (err : Option GoErr) : Bool :=
  match err with
  | none => false
  | some e => errorsAsPgError e == some "23505"

/-- src/db/postgres/errors.go IsForeignKeyViolation (code "23503"). -/
def IsForeignKeyViolation (err : Option GoErr) : Bool :=
  match err with
  | none => false
  | some e => errorsAsPgError e == some "23503"

/-- src/db/postgres/errors.go IsInvalidTextRepresentation (code "22P02"). -/
def IsInvalidTextRepresentation (err : Option GoErr) : Bool :=
  match err with
  | none => false
  | some e => errorsAsPgError e == some "22P02"

/-- src/db/postgres/errors.go IsNotNullViolation (code "23502"). -/
def IsNotNullViolation (err : Option GoErr) : Bool :=
  match err with
  | none => false
  | some e => errorsAsPgError e == some "23502"

/-- The unwrap chain of an error, the error itself included. -/
def errChain : GoErr → List GoErr
  | .wrap m inner => .wrap m inner :: errChain inner
  | e => [e]

/-- Whether an error value is a `*pgconn.PgError` with the given code. -/
def isPgWithCode (code : String) : GoErr → Bool
  | .pgError c => c == code
  | _ => false

/-- Spec-side reading of the classifiers: the error wraps (somewhere in
its chain) a `*pgconn.PgError` whose `Code` equals `code`. -/
def specWrapsPgCode (err : Option GoErr) (code : String) : Bool :=
  match err with
  | none => false
  | some e => (errChain e).any (isPgWithCode code)

/-! ## MongoDB connection manager (src/db/mongo/client.go) -/

/-- Driver-call events, used to observe how often the connect body and
its individual driver steps execute. -/
inductive Ev where
  | hostname
  | validate
  | dial
  | ping
  | dbHandle
  | pool
deriving DecidableEq, Repr

/-- Opaque mongo client handle (`*mongo.Client`); Go nil is `none` of
`Option MongoClient`. -/
abbrev MongoClient := Nat

/-- Opaque `context.Context` value. -/
abbrev Ctx := Nat

/-- The `context.Background()` value. -/
def backgroundCtx : Ctx := 0

/-- The driver options built by
`options.Client().ApplyURI(...).SetAppName(...).SetMaxPoolSize(...).SetMinPoolSize(...).SetAuth(...)`. -/
structure MongoOptions where
  uri : String
  appName : String
  maxPoolSize : Nat
  minPoolSize : Nat
  username : String
  password : String
deriving DecidableEq, Repr

/-- src/db/mongo/client.go Config. -/
structure MongoConfig where
  URI : String
  Username : String
  Password : String
  MaxPoolSize : Nat
  MinPoolSize : Nat
deriving DecidableEq, Repr

/-- Oracle for the external mongo driver and OS calls appearing in the
connect body. -/
structure MongoDriver where
  hostnameResult : String × Option GoErr
  validate : MongoOptions → Option GoErr
  connect : Ctx → MongoOptions → Option MongoClient × Option GoErr
  ping : Ctx → MongoClient → Option GoErr

/-- The package-level mutable state of package mongo: the `client`
variable and the `resync.Once` barrier (`onceFired = true` means the
one-shot gate has fired). -/
structure MongoState where
  client : Option MongoClient
  onceFired : Bool
deriving DecidableEq, Repr

/-- Fresh process state: nil client, unfired barrier. -/
def MongoState.initial : MongoState := ⟨none, false⟩

/-- The options value constructed inside the connect body. -/
def mkMongoOptions (c : MongoConfig) (host : String) : MongoOptions :=
  { uri := c.URI, appName := host, maxPoolSize := c.MaxPoolSize
    minPoolSize := c.MinPoolSize, username := c.Username, password := c.Password }

/-- The hostname resolution: `hostname, err := os.Hostname()`, falling
back to "localhost" when it is empty or the call errors. -/
def resolvedHostname (d : MongoDriver) : String :=
  if d.hostnameResult.1 = "" ∨ (d.hostnameResult.2).isSome then "localhost"
  else d.hostnameResult.1

/-- Probe `client.Ping(ctx, nil)` on the package `client` slot.  The driver's
behaviour on a nil `*mongo.Client` receiver is outside this repository;
Modelled from the spec: "the underlying call will fail against an absent
handle", so the probe of an absent handle returns an error. -/
def pingMongoSlot (d : MongoDriver) (ctx : Ctx) : Option MongoClient → Option GoErr
  | none => some (.mkError "ping on nil mongo client")
  | some cl => d.ping ctx cl

/-- src/db/mongo/client.go Config.Connect.  Returns the new package
state, the error returned to the caller, and the driver events the call
performed.  The body runs under `once.Do` only when the barrier is
unfired.  NOTE the Go scoping: `hostname, err := os.Hostname()` inside
the closure declares a NEW `err` that shadows the outer `var err error`,
so every assignment inside the closure hits the shadowed variable and
the function returns the outer `err`, which is never written. -/
def MongoConfig.Connect (c : MongoConfig) (d : MongoDriver) (ctx : Ctx)
    (s : MongoState) : MongoState × Option GoErr × List Ev :=
  -- var err error
  let errOuter : Option GoErr := none
  if s.onceFired then
    -- once.Do skips the body; return err (outer)
    (s, errOuter, [])
  else
    -- hostname, err := os.Hostname()  (shadowing starts here)
    let host := resolvedHostname d
    let opts := mkMongoOptions c host
    -- if err = opts.Validate(); err != nil { return }  (shadowed err)
    match d.validate opts with
    | some _ => ({ client := s.client, onceFired := true }, errOuter, [.hostname, .validate])
    | none =>
      -- client, err = mongo.Connect(ctx, opts)  (package client assigned
      -- whatever the driver returned, error or not; shadowed err)
      let dialRes := d.connect ctx opts
      match dialRes.2 with
      | some _ =>
        ({ client := dialRes.1, onceFired := true }, errOuter, [.hostname, .validate, .dial])
      | none =>
        -- err = client.Ping(ctx, nil)  (shadowed err; its value is dropped)
        let _pingErr := pingMongoSlot d ctx dialRes.1
        ({ client := dialRes.1, onceFired := true }, errOuter,
          [.hostname, .validate, .dial, .ping])

/-- src/db/mongo/client.go Config.Client: return the package `client`. -/
def MongoConfig.Client (_c : MongoConfig) (s : MongoState) : Option MongoClient :=
  s.client

/-- src/db/mongo/client.go Config.Ping: `client.Ping(context.Background(), nil)`. -/
def MongoConfig.Ping (_c : MongoConfig) (d : MongoDriver) (s : MongoState) : Option GoErr :=
  pingMongoSlot d backgroundCtx s.client

/-- src/db/mongo/client.go Config.SetClient: overwrite the package
`client` slot.  The source performs no driver call, hence the empty
event list. -/
def MongoConfig.SetClient (_c : MongoConfig) (conn : Option MongoClient)
    (s : MongoState) : MongoState × List Ev :=
  ({ s with client := conn }, [])

/-- src/db/mongo/client.go Config.Reset: `once.Reset()` then
`c.Connect(context.Background())`, propagating its error. -/
def MongoConfig.Reset (c : MongoConfig) (d : MongoDriver)
    (s : MongoState) : MongoState × Option GoErr × List Ev :=
  -- once.Reset()
  let s0 : MongoState := { s with onceFired := false }
  let r := c.Connect d backgroundCtx s0
  -- if err := c.Connect(...); err != nil { return err }; return nil
  match r.2.1 with
  | some e => (r.1, some e, r.2.2)
  | none => (r.1, none, r.2.2)

/-- A sequence of `n` Connect calls with the same config, driver and
context: collects each call's returned error and the concatenated
event trace. -/
def mongoRun (c : MongoConfig) (d : MongoDriver) (ctx : Ctx) :
    Nat → MongoState → MongoState × List (Option GoErr) × List Ev
  | 0, s => (s, [], [])
  | n + 1, s =>
    let r := c.Connect d ctx s
    let rest := mongoRun c d ctx n r.1
    (rest.1, r.2.1 :: rest.2.1, r.2.2 ++ rest.2.2)

/-! ## Postgres connection manager (src/db/postgres/client.go) -/

/-- Opaque `*gorm.DB` handle; Go nil is `none`. -/
abbrev GormDB := Nat

/-- Opaque `*sql.DB` handle; Go nil is `none`. -/
abbrev SqlDB := Nat

/-- gorm logger levels. -/
inductive LogLevel where
  | silent
  | error
  | warn
  | info
deriving DecidableEq, Repr

/-- src/db/postgres/client.go Config. -/
structure PgConfig where
  Database : String
  Host : String
  Username : String
  Password : String
  Params : String
  LogMode : String
  Port : Int
  MaxIdleConn : Int
  MaxOpenConn : Int
  DebugEnabled : Bool
deriving DecidableEq, Repr

/-- The dsn built by
`fmt.Sprintf("user=%s password=%s dbname=%s host=%s port=%d %s", ...)`. -/
def buildDSN (c : PgConfig) : String :=
  "user=" ++ c.Username ++ " password=" ++ c.Password ++ " dbname=" ++ c.Database ++
    " host=" ++ c.Host ++ " port=" ++ toString c.Port ++ " " ++ c.Params

/-- The `logMode` closure: `switch strings.ToLower(c.LogMode)`. -/
def logMode (s : String) : LogLevel :=
  match s.toLower with
  | "error" => .error
  | "warn" => .warn
  | "info" => .info
  | _ => .silent

/-- Oracle for the external gorm / database-sql calls in the connect
body. -/
structure PgDriver where
  gormOpen : String → LogLevel → Option GormDB × Option GoErr
  debug : GormDB → GormDB
  dbHandle : GormDB → Option SqlDB × Option GoErr
  sqlPing : SqlDB → Option GoErr
  sqlClose : SqlDB → Option GoErr

/-- The package-level mutable state of package postgres: the `db`
variable and the `resync.Once` barrier. -/
structure PgState where
  db : Option GormDB
  onceFired : Bool
deriving DecidableEq, Repr

/-- Fresh process state: nil db, unfired barrier. -/
def PgState.initial : PgState := ⟨none, false⟩

/-- Retrieval `db.DB()` on the package `db` slot.  gorm's behaviour on a nil
`*gorm.DB` receiver is outside this repository; Modelled from the spec:
retrieval of the underlying handle "will fail against an absent
handle", so it returns an error. -/
def dbDB (d : PgDriver) : Option GormDB → Option SqlDB × Option GoErr
  | none => (none, some (.mkError "absent gorm handle"))
  | some g => d.dbHandle g

/-- src/db/postgres/client.go Config.Client.  Returns the new package
state, the `(db, err)` pair returned to the caller, and the driver
events.  NOTE the Go scoping: `db, err = gorm.Open(...)` assigns the
OUTER `err` (and the package `db`, error or not), but
`sqlDB, err := db.DB()` declares a NEW `err` that shadows the outer one,
so a handle-retrieval failure is never returned to the caller. -/
def PgConfig.Client (c : PgConfig) (d : PgDriver)
    (s : PgState) : PgState × (Option GormDB × Option GoErr) × List Ev :=
  -- var err error
  let errOuter : Option GoErr := none
  if s.onceFired then
    -- once.Do skips the body; return db, err
    (s, (s.db, errOuter), [])
  else
    let dsn := buildDSN c
    let lm := logMode c.LogMode
    -- db, err = gorm.Open(postgres.Open(dsn), ...)  (outer err assigned)
    let openRes := d.gormOpen dsn lm
    match openRes.2 with
    | some e => ({ db := openRes.1, onceFired := true }, (openRes.1, some e), [.dial])
    | none =>
      -- if c.DebugEnabled { db = db.Debug() }
      let db2 := if c.DebugEnabled then openRes.1.map d.debug else openRes.1
      -- sqlDB, err := db.DB()  (shadowing starts here)
      let handleRes := dbDB d db2
      match handleRes.2 with
      | some _ => ({ db := db2, onceFired := true }, (db2, errOuter), [.dial, .dbHandle])
      | none =>
        -- sqlDB.SetMaxIdleConns(c.MaxIdleConn); sqlDB.SetMaxOpenConns(c.MaxOpenConn)
        ({ db := db2, onceFired := true }, (db2, errOuter), [.dial, .dbHandle, .pool])

/-- src/db/postgres/client.go Config.Ping: `conn, err := db.DB()`, then
`conn.Ping()`.  A nil `*sql.DB` receiver is likewise Modelled from the
spec as a failing probe. -/
def PgConfig.Ping (_c : PgConfig) (d : PgDriver) (s : PgState) : Option GoErr :=
  let r := dbDB d s.db
  match r.2 with
  | some e => some e
  | none =>
    match r.1 with
    | some q => d.sqlPing q
    | none => some (.mkError "ping on nil sql handle")

/-- src/db/postgres/client.go Config.Close: `conn, err := db.DB()`, then
`conn.Close()`. -/
def PgConfig.Close (_c : PgConfig) (d : PgDriver) (s : PgState) : Option GoErr :=
  let r := dbDB d s.db
  match r.2 with
  | some e => some e
  | none =>
    match r.1 with
    | some q => d.sqlClose q
    | none => some (.mkError "close on nil sql handle")

/-- src/db/postgres/client.go Config.SetDB: overwrite the package `db`
slot.  The source performs no driver call, hence the empty event list. -/
def PgConfig.SetDB (_c : PgConfig) (conn : Option GormDB)
    (s : PgState) : PgState × List Ev :=
  ({ s with db := conn }, [])

/-- src/db/postgres/client.go Config.DB: return the package `db`. -/
def PgConfig.DB (_c : PgConfig) (s : PgState) : Option GormDB :=
  s.db

/-- src/db/postgres/client.go Config.Reset: `once.Reset()`, then
`db, err = c.Client()` (reassigning the package `db` to Client's first
result), propagating Client's error. -/
def PgConfig.Reset (c : PgConfig) (d : PgDriver)
    (s : PgState) : PgState × Option GoErr × List Ev :=
  -- once.Reset()
  let s0 : PgState := { s with onceFired := false }
  let r := c.Client d s0
  -- db, err = c.Client()
  let s1 : PgState := { r.1 with db := r.2.1.1 }
  match r.2.1.2 with
  | some e => (s1, some e, r.2.2)
  | none => (s1, none, r.2.2)

/-- A sequence of `n` Client calls with the same config and driver:
collects each call's returned `(db, err)` pair and the concatenated
event trace. -/
def pgRun (c : PgConfig) (d : PgDriver) :
    Nat → PgState → PgState × List (Option GormDB × Option GoErr) × List Ev
  | 0, s => (s, [], [])
  | n + 1, s =>
    let r := c.Client d s
    let rest := pgRun c d n r.1
    (rest.1, r.2.1 :: rest.2.1, r.2.2 ++ rest.2.2)

/-! ## Migration helpers (src/db/migration.go, src/db/postgres/migration.go) -/

/-- The filesystem, as the set of existing file paths.  `os.Create`
creates or truncates, `os.Remove` deletes. -/
def insertFile (name : String) (fs : List String) : List String :=
  if fs.contains name then fs else name :: fs

/-- Model of `os.Remove` (its error is ignored by the caller in the source). -/
def removeFile (name : String) (fs : List String) : List String :=
  fs.filter (fun f => f != name)

/-- src/db/migration.go createFile: `os.Create` then `Close`.  The
environment oracle `env` says which paths can be created (e.g. false for
every path in a read-only directory). -/
def createFile (env : String → Bool) (filename : String)
    (fs : List String) : List String × Option GoErr :=
  if env filename then (insertFile filename fs, none)
  else (fs, some (.mkError ("create " ++ filename)))

/-- The up/down file paths built by `fmt.Sprintf` in the `switch` on the
database type of src/db/migration.go CreateMigrationFiles: `.sql` files
for "postgres", `.json` files for "mongodb", no paths otherwise. -/
def migrationPaths (ts : Int) (filename : String) (t : String) :
    Option (String × String) :=
  match t with
  | "postgres" =>
    some ("./migrations/" ++ toString ts ++ "_" ++ filename ++ ".up.sql",
      "./migrations/" ++ toString ts ++ "_" ++ filename ++ ".down.sql")
  | "mongodb" =>
    some ("./migrations/" ++ toString ts ++ "_" ++ filename ++ ".up.json",
      "./migrations/" ++ toString ts ++ "_" ++ filename ++ ".down.json")
  | _ => none

/-- src/db/migration.go CreateMigrationFiles: reject an empty filename,
reject an invalid database type, create the up file, create the down
file, and on a down-file failure remove the up file before returning the
error.  `ts` is `time.Now().Unix()`. -/
def CreateMigrationFiles (env : String → Bool) (ts : Int)
    (filename : String) (t : String) (fs : List String) :
    List String × Option GoErr :=
  if filename.length = 0 then
    (fs, some (.mkError "migration filename is not found"))
  else
    match migrationPaths ts filename t with
    | none => (fs, some (.mkError "db type is invalid"))
    | some paths =>
      match createFile env paths.1 fs with
      | (fs1, some e) => (fs1, some e)
      | (fs1, none) =>
        match createFile env paths.2 fs1 with
        | (fs2, some e) => (removeFile paths.1 fs2, some e)
        | (fs2, none) => (fs2, none)

/-- A `*migrate.Migrate` instance, by its observable behaviour: the
result of `Up()` and of `Steps(n)` for each `n`. -/
structure Migrate where
  up : Option GoErr
  steps : Int → Option GoErr

/-- src/db/migration.go RunMigration:
`if err := migration.Up(); err != nil && !errors.Is(err, migrate.ErrNoChange) { return err }; return nil`. -/
def RunMigration (m : Migrate) : Option GoErr :=
  match m.up with
  | some e => if errorsIsNoChange e then none else some e
  | none => none

/-- src/db/migration.go RollbackMigration:
`if err := migration.Steps(-1); err != nil { return err }; return nil`. -/
def RollbackMigration (m : Migrate) : Option GoErr :=
  match m.steps (-1) with
  | some e => some e
  | none => none

/-! ## Concrete fixtures used by counterexamples and witnesses -/

/-- A concrete mongo configuration. -/
def cfgM : MongoConfig :=
  { URI := "mongodb://h", Username := "u", Password := "p"
    MaxPoolSize := 4, MinPoolSize := 1 }

/-- A concrete postgres configuration. -/
def cfgP : PgConfig :=
  { Database := "d", Host := "h", Username := "u", Password := "p"
    Params := "sslmode=disable", LogMode := "info", Port := 5432
    MaxIdleConn := 2, MaxOpenConn := 5, DebugEnabled := false }

def errDial : GoErr := .mkError "dial refused"

def errPing : GoErr := .mkError "ping failed"

def errValidate : GoErr := .mkError "invalid options"

def errHandle : GoErr := .mkError "no sql handle"

/-- Mongo driver whose dial succeeds with handle 7 but whose liveness
probe fails. -/
def mongoDriverPingFail : MongoDriver :=
  { hostnameResult := ("box", none)
    validate := fun _ => none
    connect := fun _ _ => (some 7, none)
    ping := fun _ _ => some errPing }

/-- Mongo driver whose option validation fails. -/
def mongoDriverValidateFail : MongoDriver :=
  { hostnameResult := ("box", none)
    validate := fun _ => some errValidate
    connect := fun _ _ => (none, some errDial)
    ping := fun _ _ => none }

/-- Mongo driver for which every step succeeds (dial yields handle 7). -/
def mongoDriverOk : MongoDriver :=
  { hostnameResult := ("box", none)
    validate := fun _ => none
    connect := fun _ _ => (some 7, none)
    ping := fun _ _ => none }

/-- Postgres driver whose dial (gorm.Open) fails. -/
def pgDriverOpenFail : PgDriver :=
  { gormOpen := fun _ _ => (none, some errDial)
    debug := id
    dbHandle := fun g => (some g, none)
    sqlPing := fun _ => none
    sqlClose := fun _ => none }

/-- Postgres driver whose dial succeeds (handle 3) but whose `db.DB()`
handle retrieval fails. -/
def pgDriverHandleFail : PgDriver :=
  { gormOpen := fun _ _ => (some 3, none)
    debug := id
    dbHandle := fun _ => (none, some errHandle)
    sqlPing := fun _ => none
    sqlClose := fun _ => none }

/-- Postgres driver for which every step succeeds (dial yields handle 3). -/
def pgDriverOk : PgDriver :=
  { gormOpen := fun _ _ => (some 3, none)
    debug := id
    dbHandle := fun g => (some g, none)
    sqlPing := fun _ => none
    sqlClose := fun _ => none }

/-! ## Helper lemmas -/

theorem errChain_any_eq (code : String) (e : GoErr) :
    (errChain e).any (isPgWithCode code) = (errorsAsPgError e == some code) := by
  induction e with
  | pgError c => simp [errChain, isPgWithCode, errorsAsPgError]
  | noChange => simp [errChain, isPgWithCode, errorsAsPgError]
  | mkError m => simp [errChain, isPgWithCode, errorsAsPgError]
  | wrap m inner ih => simp [errChain, isPgWithCode, errorsAsPgError, ih]

theorem removeFile_not_mem (name : String) (fs : List String) :
    name ∉ removeFile name fs := by
  intro hmem
  have h := List.mem_filter.mp hmem
  simp at h

theorem mongoConnect_fired (c : MongoConfig) (d : MongoDriver) (ctx : Ctx)
    (s : MongoState) (h : s.onceFired = true) :
    c.Connect d ctx s = (s, none, []) := by
  simp [MongoConfig.Connect, h]

theorem mongoConnect_fires (c : MongoConfig) (d : MongoDriver) (ctx : Ctx)
    (s : MongoState) : ((c.Connect d ctx s).1).onceFired = true := by
  by_cases h : s.onceFired = true
  · rw [mongoConnect_fired c d ctx s h]
    exact h
  · unfold MongoConfig.Connect
    rw [if_neg h]
    dsimp only
    split
    · rfl
    · split <;> rfl

theorem mongoConnect_err_none (c : MongoConfig) (d : MongoDriver) (ctx : Ctx)
    (s : MongoState) : (c.Connect d ctx s).2.1 = none := by
  by_cases h : s.onceFired = true
  · rw [mongoConnect_fired c d ctx s h]
  · unfold MongoConfig.Connect
    rw [if_neg h]
    dsimp only
    split
    · rfl
    · split <;> rfl

theorem pgClient_fired (c : PgConfig) (d : PgDriver)
    (s : PgState) (h : s.onceFired = true) :
    c.Client d s = (s, (s.db, none), []) := by
  simp [PgConfig.Client, h]

theorem pgClient_fires (c : PgConfig) (d : PgDriver)
    (s : PgState) : ((c.Client d s).1).onceFired = true := by
  by_cases h : s.onceFired = true
  · rw [pgClient_fired c d s h]
    exact h
  · unfold PgConfig.Client
    rw [if_neg h]
    dsimp only
    split
    · rfl
    · split <;> rfl

theorem pgClient_db_eq (c : PgConfig) (d : PgDriver) (s : PgState) :
    (c.Client d s).2.1.1 = ((c.Client d s).1).db := by
  by_cases h : s.onceFired = true
  · rw [pgClient_fired c d s h]
  · unfold PgConfig.Client
    rw [if_neg h]
    dsimp only
    split
    · rfl
    · split <;> rfl

theorem mongoRun_fired (c : MongoConfig) (d : MongoDriver) (ctx : Ctx)
    (n : Nat) (s : MongoState) (h : s.onceFired = true) :
    mongoRun c d ctx n s = (s, List.replicate n none, []) := by
  induction n with
  | zero => simp [mongoRun]
  | succ k ih => simp [mongoRun, mongoConnect_fired c d ctx s h, ih, List.replicate]

theorem pgRun_fired (c : PgConfig) (d : PgDriver)
    (n : Nat) (s : PgState) (h : s.onceFired = true) :
    pgRun c d n s = (s, List.replicate n (s.db, none), []) := by
  induction n with
  | zero => simp [pgRun]
  | succ k ih => simp [pgRun, pgClient_fired c d s h, ih, List.replicate]

/-! ## Claim theorems -/

/-- C10: each Postgres error classifier (IsUniqueViolation,
IsForeignKeyViolation, IsInvalidTextRepresentation, IsNotNullViolation)
returns true exactly when the error wraps a `*pgconn.PgError` whose Code
equals the corresponding SQLSTATE ("23505", "23503", "22P02", "23502");
in particular each returns false on a nil error and on any error whose
chain holds no PgError. -/
theorem C10_pg_error_classifiers (err : Option GoErr) :
    IsUniqueViolation err = specWrapsPgCode err "23505" ∧
    IsForeignKeyViolation err = specWrapsPgCode err "23503" ∧
    IsInvalidTextRepresentation err = specWrapsPgCode err "22P02" ∧
    IsNotNullViolation err = specWrapsPgCode err "23502" ∧
    IsUniqueViolation none = false ∧
    IsForeignKeyViolation none = false ∧
    IsInvalidTextRepresentation none = false ∧
    IsNotNullViolation none = false := by
  refine ⟨?_, ?_, ?_, ?_, rfl, rfl, rfl, rfl⟩ <;>
    cases err <;>
    simp [IsUniqueViolation, IsForeignKeyViolation, IsInvalidTextRepresentation,
      IsNotNullViolation, specWrapsPgCode, errChain_any_eq]

/-- C9: RunMigration returns nil both when Up succeeds and when Up
reports the ErrNoChange sentinel (also when the sentinel is wrapped),
returns the error otherwise, and RollbackMigration returns exactly the
error of Steps applied to -1. -/
theorem C9_migration_sentinel (m : Migrate) :
    (m.up = none → RunMigration m = none) ∧
    (∀ e, m.up = some e → errorsIsNoChange e = true → RunMigration m = none) ∧
    (∀ e, m.up = some e → errorsIsNoChange e = false → RunMigration m = some e) ∧
    RollbackMigration m = m.steps (-1) := by
  refine ⟨?_, ?_, ?_, ?_⟩
  · intro h
    simp [RunMigration, h]
  · intro e he hn
    simp [RunMigration, he, hn]
  · intro e he hn
    simp [RunMigration, he, hn]
  · unfold RollbackMigration
    cases h : m.steps (-1) <;> simp [h]

/-- C9 witness: a migration whose Up reports a wrapped ErrNoChange runs
to nil, and rollback reports Steps(-1) verbatim. -/
def mNoChange : Migrate :=
  { up := some (.wrap "run" .noChange), steps := fun _ => some errDial }

theorem C9_witness :
    RunMigration mNoChange = none ∧ RollbackMigration mNoChange = mNoChange.steps (-1) :=
  ⟨(C9_migration_sentinel mNoChange).2.1 (.wrap "run" .noChange) rfl rfl,
    (C9_migration_sentinel mNoChange).2.2.2⟩

/-- C8: an empty filename or an invalid backend type yields an error
with the filesystem unchanged; when the up file is created but the down
file creation fails, the up file is removed again and the error
returned, so the created up file is not left behind. -/
theorem C8_migration_atomicity (env : String → Bool) (ts : Int)
    (filename t : String) (fs : List String) :
    (CreateMigrationFiles env ts "" t fs =
      (fs, some (.mkError "migration filename is not found"))) ∧
    (t ≠ "postgres" → t ≠ "mongodb" → migrationPaths ts filename t = none) ∧
    (filename.length ≠ 0 → migrationPaths ts filename t = none →
      CreateMigrationFiles env ts filename t fs =
        (fs, some (.mkError "db type is invalid"))) ∧
    (∀ up down, filename.length ≠ 0 →
      migrationPaths ts filename t = some (up, down) →
      env up = true → env down = false →
      CreateMigrationFiles env ts filename t fs =
        (removeFile up (insertFile up fs), some (.mkError ("create " ++ down))) ∧
      up ∉ (CreateMigrationFiles env ts filename t fs).1) := by
  refine ⟨?_, ?_, ?_, ?_⟩
  · simp [CreateMigrationFiles]
  · intro h1 h2
    unfold migrationPaths
    split <;> simp_all
  · intro hlen hpaths
    simp [CreateMigrationFiles, hlen, hpaths]
  · intro up down hlen hpaths hup hdown
    have hres : CreateMigrationFiles env ts filename t fs =
        (removeFile up (insertFile up fs), some (.mkError ("create " ++ down))) := by
      simp [CreateMigrationFiles, hlen, hpaths, createFile, hup, hdown]
    refine ⟨hres, ?_⟩
    rw [hres]
    exact removeFile_not_mem up (insertFile up fs)

/-- C8 witness: concrete run where the down file cannot be created
(read-only path): the error is returned and the up file is gone. -/
def envDownFail : String → Bool :=
  fun p => p != "./migrations/100_init.down.sql"

theorem C8_witness :
    CreateMigrationFiles envDownFail 100 "init" "postgres" [] =
      (removeFile "./migrations/100_init.up.sql"
          (insertFile "./migrations/100_init.up.sql" []),
        some (.mkError ("create " ++ "./migrations/100_init.down.sql"))) ∧
    "./migrations/100_init.up.sql" ∉
      (CreateMigrationFiles envDownFail 100 "init" "postgres" []).1 :=
  (C8_migration_atomicity envDownFail 100 "init" "postgres" []).2.2.2
    "./migrations/100_init.up.sql" "./migrations/100_init.down.sql"
    (by decide) (by decide) (by decide) (by decide)

/-- C1 counterexample: against a failing backend, the generation's first
postgres Client call returns the dial error, but the second call (no
Reset in between) returns a nil error — not the original cached error —
so the claimed sticky-failure replay is false on the code. -/
theorem C1_counterexample :
    (pgRun cfgP pgDriverOpenFail 2 PgState.initial).2.1 =
      [(none, some errDial), (none, none)] ∧
    some errDial ≠ (none : Option GoErr) := by
  constructor
  · rfl
  · simp

/-- C1 amended: after a generation's first Connect call has run —
in particular after it failed — every later Connect call in the same
generation returns a NIL error without re-running the connect body (no
driver events): the original failure is not cached or replayed. -/
theorem C1_failure_not_cached :
    (∀ (c : PgConfig) (d : PgDriver) (s : PgState), s.onceFired = true →
      c.Client d s = (s, (s.db, none), [])) ∧
    (∀ (c : PgConfig) (d : PgDriver) (s : PgState),
      ((c.Client d s).1).onceFired = true) ∧
    (∀ (c : MongoConfig) (d : MongoDriver) (ctx : Ctx) (s : MongoState),
      s.onceFired = true → c.Connect d ctx s = (s, none, [])) ∧
    (∀ (c : MongoConfig) (d : MongoDriver) (ctx : Ctx) (s : MongoState),
      ((c.Connect d ctx s).1).onceFired = true) :=
  ⟨fun c d s h => pgClient_fired c d s h,
    fun c d s => pgClient_fires c d s,
    fun c d ctx s h => mongoConnect_fired c d ctx s h,
    fun c d ctx s => mongoConnect_fires c d ctx s⟩

/-- C1 witness: the fired state after the failed first call: the next
call returns the stored nil db and a nil error with no driver events. -/
theorem C1_witness :
    cfgP.Client pgDriverOpenFail { db := none, onceFired := true } =
      ({ db := none, onceFired := true }, (none, none), []) :=
  C1_failure_not_cached.1 cfgP pgDriverOpenFail { db := none, onceFired := true } rfl

/-- C2: the code swallows connect-body errors instead of propagating
them.  Mongo Connect returns a nil error for EVERY driver, config,
context and state, because `hostname, err := os.Hostname()` shadows the
outer `err`; concretely, with a driver whose option validation fails the
body runs (events hostname, validate) and the failure is dropped.  On
the postgres side, a failed `db.DB()` handle retrieval is likewise
shadowed by `sqlDB, err := db.DB()`: the body runs into the failing
handle step and Client still returns a nil error. -/
theorem C2_connect_error_swallowed :
    (∀ (c : MongoConfig) (d : MongoDriver) (ctx : Ctx) (s : MongoState),
      (c.Connect d ctx s).2.1 = none) ∧
    cfgM.Connect mongoDriverValidateFail backgroundCtx MongoState.initial =
      ({ client := none, onceFired := true }, none, [.hostname, .validate]) ∧
    mongoDriverValidateFail.validate
      (mkMongoOptions cfgM (resolvedHostname mongoDriverValidateFail)) =
      some errValidate ∧
    cfgP.Client pgDriverHandleFail PgState.initial =
      ({ db := some 3, onceFired := true }, (some 3, none), [.dial, .dbHandle]) ∧
    pgDriverHandleFail.dbHandle 3 = (none, some errHandle) :=
  ⟨fun c d ctx s => mongoConnect_err_none c d ctx s, rfl, rfl, rfl, rfl⟩

/-- C3 counterexample: with a driver whose dial succeeds (handle 7) and
whose liveness probe fails, Connect from the fresh state installs
client 7 in the slot even though the probe failed, so the slot does not
keep its prior (nil) value. -/
theorem C3_counterexample :
    ((cfgM.Connect mongoDriverPingFail backgroundCtx MongoState.initial).1).client =
      some 7 ∧
    MongoState.initial.client = none ∧
    mongoDriverPingFail.ping backgroundCtx 7 = some errPing := by
  refine ⟨rfl, rfl, rfl⟩

/-- C3 amended: only a validation failure leaves the stored slot
unchanged; once the dial runs, the slot is overwritten with whatever
handle the dial returned (nil on a failed dial), and after a failed
liveness probe (mongo) the freshly dialed client stays installed.  On
the postgres side the slot likewise becomes the dial's result (with
debug applied when enabled) whether or not the remaining steps fail. -/
theorem C3_slot_overwritten :
    (∀ (c : MongoConfig) (d : MongoDriver) (ctx : Ctx) (s : MongoState),
      s.onceFired = false →
      (d.validate (mkMongoOptions c (resolvedHostname d))).isSome = true →
      ((c.Connect d ctx s).1).client = s.client) ∧
    (∀ (c : MongoConfig) (d : MongoDriver) (ctx : Ctx) (s : MongoState),
      s.onceFired = false →
      d.validate (mkMongoOptions c (resolvedHostname d)) = none →
      ((c.Connect d ctx s).1).client =
        (d.connect ctx (mkMongoOptions c (resolvedHostname d))).1) ∧
    (∀ (c : PgConfig) (d : PgDriver) (s : PgState),
      s.onceFired = false →
      ((c.Client d s).1).db =
        (match (d.gormOpen (buildDSN c) (logMode c.LogMode)).2 with
          | some _ => (d.gormOpen (buildDSN c) (logMode c.LogMode)).1
          | none =>
            if c.DebugEnabled then
              ((d.gormOpen (buildDSN c) (logMode c.LogMode)).1).map d.debug
            else (d.gormOpen (buildDSN c) (logMode c.LogMode)).1)) := by
  refine ⟨?_, ?_, ?_⟩
  · intro c d ctx s hs hv
    unfold MongoConfig.Connect
    rw [if_neg (by simp [hs])]
    dsimp only
    split
    · rfl
    · simp_all
  · intro c d ctx s hs hv
    unfold MongoConfig.Connect
    rw [if_neg (by simp [hs])]
    dsimp only
    split
    · simp_all
    · split <;> rfl
  · intro c d s hs
    unfold PgConfig.Client
    rw [if_neg (by simp [hs])]
    dsimp only
    split
    · simp_all
    · split <;> simp_all

/-- C3 witness for the amended claim: validation failure preserves the
slot; after a successful dial with failing probe the dialed handle 7 is
the stored client. -/
theorem C3_witness :
    ((cfgM.Connect mongoDriverValidateFail backgroundCtx
        { client := some 9, onceFired := false }).1).client = some 9 ∧
    ((cfgM.Connect mongoDriverPingFail backgroundCtx
        { client := some 9, onceFired := false }).1).client =
      (mongoDriverPingFail.connect backgroundCtx
        (mkMongoOptions cfgM (resolvedHostname mongoDriverPingFail))).1 ∧
    ((cfgP.Client pgDriverOpenFail
        { db := some 9, onceFired := false }).1).db = none :=
  ⟨C3_slot_overwritten.1 cfgM mongoDriverValidateFail backgroundCtx
      { client := some 9, onceFired := false } rfl rfl,
    C3_slot_overwritten.2.1 cfgM mongoDriverPingFail backgroundCtx
      { client := some 9, onceFired := false } rfl rfl,
    C3_slot_overwritten.2.2 cfgP pgDriverOpenFail
      { db := some 9, onceFired := false } rfl⟩

theorem mongoConnect_unfired_trace (c : MongoConfig) (d : MongoDriver)
    (ctx : Ctx) (s : MongoState) (h : s.onceFired = false) :
    (c.Connect d ctx s).2.2 ≠ [] := by
  unfold MongoConfig.Connect
  rw [if_neg (by simp [h])]
  dsimp only
  split
  · simp
  · split <;> simp

theorem pgClient_unfired_trace (c : PgConfig) (d : PgDriver)
    (s : PgState) (h : s.onceFired = false) :
    (c.Client d s).2.2 ≠ [] := by
  unfold PgConfig.Client
  rw [if_neg (by simp [h])]
  dsimp only
  split
  · simp
  · split <;> simp

theorem mongoReset_eq (c : MongoConfig) (d : MongoDriver) (s : MongoState) :
    c.Reset d s = c.Connect d backgroundCtx { s with onceFired := false } := by
  unfold MongoConfig.Reset
  dsimp only
  split
  · next e heq => rw [← heq]
  · next heq => rw [← heq]

theorem pgReset_eq (c : PgConfig) (d : PgDriver) (s : PgState) :
    c.Reset d s = ((c.Client d { s with onceFired := false }).1,
      (c.Client d { s with onceFired := false }).2.1.2,
      (c.Client d { s with onceFired := false }).2.2) := by
  unfold PgConfig.Reset
  dsimp only
  rw [pgClient_db_eq]
  split
  · next e heq => rw [heq]
  · next heq => rw [heq]

/-- C4: Reset first returns the barrier to Unfired, then synchronously
re-runs the connect operation on that unfired state with the same
configuration, returning exactly that attempt's error (nil on success);
the attempt runs the connect body, i.e. it is the first attempt of a
fresh generation (its driver-event trace is nonempty). -/
theorem C4_reset_semantics :
    (∀ (c : MongoConfig) (d : MongoDriver) (s : MongoState),
      c.Reset d s = c.Connect d backgroundCtx { s with onceFired := false } ∧
      (c.Reset d s).2.2 ≠ []) ∧
    (∀ (c : PgConfig) (d : PgDriver) (s : PgState),
      c.Reset d s = ((c.Client d { s with onceFired := false }).1,
        (c.Client d { s with onceFired := false }).2.1.2,
        (c.Client d { s with onceFired := false }).2.2) ∧
      (c.Reset d s).2.2 ≠ []) := by
  constructor
  · intro c d s
    refine ⟨mongoReset_eq c d s, ?_⟩
    rw [mongoReset_eq c d s]
    exact mongoConnect_unfired_trace c d backgroundCtx _ rfl
  · intro c d s
    refine ⟨pgReset_eq c d s, ?_⟩
    rw [pgReset_eq c d s]
    exact pgClient_unfired_trace c d _ rfl

/-- C5 counterexample: two Client calls against the fresh manager and a
failing backend do not return the same outcome: the first returns the
dial error, the second a nil error. -/
theorem C5_counterexample :
    (pgRun cfgP pgDriverOpenFail 2 PgState.initial).2.1.get? 0 ≠
      (pgRun cfgP pgDriverOpenFail 2 PgState.initial).2.1.get? 1 := by
  decide

theorem mongoConnect_unfired_success_trace (c : MongoConfig) (d : MongoDriver)
    (ctx : Ctx) (s : MongoState) (hs : s.onceFired = false)
    (hv : d.validate (mkMongoOptions c (resolvedHostname d)) = none)
    (hd : (d.connect ctx (mkMongoOptions c (resolvedHostname d))).2 = none) :
    (c.Connect d ctx s).2.2 = [.hostname, .validate, .dial, .ping] := by
  unfold MongoConfig.Connect
  rw [if_neg (by simp [hs])]
  dsimp only
  split
  · simp_all
  · split
    · simp_all
    · rfl

theorem pgClient_unfired_success (c : PgConfig) (d : PgDriver) (s : PgState)
    (g : GormDB) (q : SqlDB) (hs : s.onceFired = false)
    (hopen : d.gormOpen (buildDSN c) (logMode c.LogMode) = (some g, none))
    (hh : d.dbHandle (if c.DebugEnabled then d.debug g else g) = (some q, none)) :
    c.Client d s =
      ({ db := some (if c.DebugEnabled then d.debug g else g), onceFired := true },
        (some (if c.DebugEnabled then d.debug g else g), none),
        [.dial, .dbHandle, .pool]) := by
  unfold PgConfig.Client
  rw [if_neg (by simp [hs])]
  dsimp only
  rw [hopen]
  cases hdbg : c.DebugEnabled <;> simp_all [dbDB]

/-- C5 amended: against a fresh manager, however many Connect calls are
made, only the first runs the connect body (the whole event trace of the
run is the first call's trace); with a working backend exactly one dial
and one probe execute and every call returns the same success outcome
(nil error for mongo; the stored handle and nil error for postgres). -/
theorem C5_single_flight :
    (∀ (c : MongoConfig) (d : MongoDriver) (ctx : Ctx) (n : Nat) (s : MongoState),
      s.onceFired = false →
      (mongoRun c d ctx (n + 1) s).2.2 = (c.Connect d ctx s).2.2 ∧
      (mongoRun c d ctx (n + 1) s).2.1 = List.replicate (n + 1) none) ∧
    (∀ (c : MongoConfig) (d : MongoDriver) (ctx : Ctx) (n : Nat) (s : MongoState),
      s.onceFired = false →
      d.validate (mkMongoOptions c (resolvedHostname d)) = none →
      (d.connect ctx (mkMongoOptions c (resolvedHostname d))).2 = none →
      (mongoRun c d ctx (n + 1) s).2.2 = [.hostname, .validate, .dial, .ping] ∧
      ((mongoRun c d ctx (n + 1) s).2.2).count .dial = 1 ∧
      ((mongoRun c d ctx (n + 1) s).2.2).count .ping = 1) ∧
    (∀ (c : PgConfig) (d : PgDriver) (n : Nat) (s : PgState),
      s.onceFired = false →
      (pgRun c d (n + 1) s).2.2 = (c.Client d s).2.2) ∧
    (∀ (c : PgConfig) (d : PgDriver) (n : Nat) (s : PgState) (g : GormDB) (q : SqlDB),
      s.onceFired = false →
      d.gormOpen (buildDSN c) (logMode c.LogMode) = (some g, none) →
      d.dbHandle (if c.DebugEnabled then d.debug g else g) = (some q, none) →
      (pgRun c d (n + 1) s).2.1 =
        List.replicate (n + 1) (some (if c.DebugEnabled then d.debug g else g), none) ∧
      ((pgRun c d (n + 1) s).2.2).count .dial = 1) := by
  have hmongo : ∀ (c : MongoConfig) (d : MongoDriver) (ctx : Ctx) (n : Nat)
      (s : MongoState), s.onceFired = false →
      (mongoRun c d ctx (n + 1) s).2.2 = (c.Connect d ctx s).2.2 ∧
      (mongoRun c d ctx (n + 1) s).2.1 = List.replicate (n + 1) none := by
    intro c d ctx n s _
    have hf := mongoConnect_fires c d ctx s
    constructor
    · simp [mongoRun, mongoRun_fired c d ctx n (c.Connect d ctx s).1 hf]
    · simp [mongoRun, mongoRun_fired c d ctx n (c.Connect d ctx s).1 hf,
        mongoConnect_err_none, List.replicate_succ]
  have hpg : ∀ (c : PgConfig) (d : PgDriver) (n : Nat) (s : PgState),
      s.onceFired = false →
      (pgRun c d (n + 1) s).2.2 = (c.Client d s).2.2 := by
    intro c d n s _
    have hf := pgClient_fires c d s
    simp [pgRun, pgRun_fired c d n (c.Client d s).1 hf]
  refine ⟨hmongo, ?_, hpg, ?_⟩
  · intro c d ctx n s hs hv hd
    have htr := (hmongo c d ctx n s hs).1
    rw [htr, mongoConnect_unfired_success_trace c d ctx s hs hv hd]
    refine ⟨rfl, by decide, by decide⟩
  · intro c d n s g q hs hopen hh
    have hcl := pgClient_unfired_success c d s g q hs hopen hh
    have hrun := pgRun_fired c d n
      ({ db := some (if c.DebugEnabled then d.debug g else g), onceFired := true } : PgState) rfl
    constructor
    · simp [pgRun, hcl, hrun, List.replicate_succ]
    · rw [hpg c d n s hs, hcl]
      rfl

/-- C5 witness: two calls against the fresh manager with a working
backend: one dial, one probe, and both calls return the same success
outcome. -/
theorem C5_witness :
    (mongoRun cfgM mongoDriverOk backgroundCtx 2 MongoState.initial).2.1 =
      List.replicate 2 none ∧
    ((mongoRun cfgM mongoDriverOk backgroundCtx 2 MongoState.initial).2.2).count .dial = 1 ∧
    (pgRun cfgP pgDriverOk 2 PgState.initial).2.1 =
      List.replicate 2 (some 3, none) :=
  ⟨(C5_single_flight.1 cfgM mongoDriverOk backgroundCtx 1 MongoState.initial rfl).2,
    (C5_single_flight.2.1 cfgM mongoDriverOk backgroundCtx 1 MongoState.initial
      rfl rfl rfl).2.1,
    (C5_single_flight.2.2.2 cfgP pgDriverOk 1 PgState.initial 3 3 rfl rfl rfl).1⟩

/-- C6: SetClient (mongo) and SetDB (postgres) store exactly the given
handle, the accessor Client() / DB() then returns exactly that handle,
the barrier state is unchanged, and the override performs no driver
events (in particular no dial). -/
theorem C6_override_bypass :
    (∀ (c : MongoConfig) (conn : Option MongoClient) (s : MongoState),
      ((c.SetClient conn s).1).client = conn ∧
      c.Client ((c.SetClient conn s).1) = conn ∧
      ((c.SetClient conn s).1).onceFired = s.onceFired ∧
      (c.SetClient conn s).2 = []) ∧
    (∀ (c : PgConfig) (conn : Option GormDB) (s : PgState),
      ((c.SetDB conn s).1).db = conn ∧
      c.DB ((c.SetDB conn s).1) = conn ∧
      ((c.SetDB conn s).1).onceFired = s.onceFired ∧
      (c.SetDB conn s).2 = []) :=
  ⟨fun _ _ _ => ⟨rfl, rfl, rfl, rfl⟩, fun _ _ _ => ⟨rfl, rfl, rfl, rfl⟩⟩

/-- C7: with no stored client the Ping operation returns an error (the
external driver's probe against an absent handle is modelled from the
spec as failing); with a stored client, Ping probes it through the
default background context, never a caller-supplied one. -/
theorem C7_ping_absent_handle :
    (∀ (c : MongoConfig) (d : MongoDriver) (s : MongoState), s.client = none →
      (c.Ping d s).isSome = true) ∧
    (∀ (c : MongoConfig) (d : MongoDriver) (s : MongoState) (cl : MongoClient),
      s.client = some cl → c.Ping d s = d.ping backgroundCtx cl) ∧
    (∀ (c : PgConfig) (d : PgDriver) (s : PgState), s.db = none →
      (c.Ping d s).isSome = true) ∧
    (∀ (c : PgConfig) (d : PgDriver) (s : PgState) (g : GormDB) (q : SqlDB),
      s.db = some g → d.dbHandle g = (some q, none) →
      c.Ping d s = d.sqlPing q) := by
  refine ⟨?_, ?_, ?_, ?_⟩
  · intro c d s h
    simp [MongoConfig.Ping, pingMongoSlot, h]
  · intro c d s cl h
    simp [MongoConfig.Ping, pingMongoSlot, h]
  · intro c d s h
    simp [PgConfig.Ping, dbDB, h]
  · intro c d s g q hg hh
    simp [PgConfig.Ping, dbDB, hg, hh]

/-- C7 witness: mongo Ping on the fresh (clientless) state errors; a
stored postgres handle is probed via the retrieved sql handle. -/
theorem C7_witness :
    (cfgM.Ping mongoDriverOk MongoState.initial).isSome = true ∧
    cfgP.Ping pgDriverOk { db := some 3, onceFired := true } = pgDriverOk.sqlPing 3 :=
  ⟨C7_ping_absent_handle.1 cfgM mongoDriverOk MongoState.initial rfl,
    C7_ping_absent_handle.2.2.2 cfgP pgDriverOk
      { db := some 3, onceFired := true } 3 3 rfl rfl⟩

end GoLibrary
